import Mathlib

/-!
Shallow embedding of the authentication and email-verification core of the
digi-clinic backend (src/authentication/{models,services,signals,views}.py,
src/consultants/models.py, src/patients/models.py).

Timestamps are modelled as integers (seconds).  UUIDs and primary keys are
modelled as naturals.  Password hashes are modelled as opaque naturals: two
hashes compare equal exactly when the underlying passwords do.
-/

namespace DigiClinic

/-- Roles of authentication/models.py User.ROLE_CHOICES. -/
inductive Role where
  | patient
  | consultant
  | admin
deriving DecidableEq, Repr

/-- User row (authentication/models.py, class User, lines 36-87).
Fields irrelevant to the claims (is_staff, created_at, updated_at) are
omitted; password stands for the stored credential hash. -/
structure User where
  id : Nat
  email : String
  password : Nat
  first_name : String
  last_name : String
  role : Role
  is_active : Bool
  is_online : Bool
  is_verified : Bool
  last_seen : Int
  email_verified_at : Option Int
deriving DecidableEq, Repr

/-- User.mark_email_verified (models.py lines 69-73): sets is_verified and
stamps email_verified_at with the current time, unconditionally. -/
def User.mark_email_verified (u : User) (now : Int) : User :=
  { u with is_verified := true, email_verified_at := some now }

/-- User.update_online_status / AuthenticationService.update_user_status
(models.py lines 75-79, services.py lines 59-75): sets the online flag and
last_seen.  The best-effort cache mirror has no observable state here. -/
def update_user_status (u : User) (isOnline : Bool) (now : Int) : User :=
  { u with is_online := isOnline, last_seen := now }

/-- EmailVerificationToken row (authentication/models.py lines 90-109).
expires_at is filled in by save() as created_at + 24h when unset; create
always goes through save, so the constructor below bakes that in. -/
structure EmailVerificationToken where
  token : Nat
  userId : Nat
  created_at : Int
  expires_at : Int
  is_used : Bool
deriving DecidableEq, Repr

/-- EmailVerificationToken.is_expired (models.py lines 111-112):
timezone.now() > expires_at. -/
def EmailVerificationToken.is_expired (t : EmailVerificationToken) (now : Int) : Bool :=
  decide (now > t.expires_at)

/-- EmailVerificationToken.is_valid (models.py lines 114-115). -/
def EmailVerificationToken.is_valid (t : EmailVerificationToken) (now : Int) : Bool :=
  !t.is_used && !(t.is_expired now)

/-- EmailVerificationToken.objects.create(user=user): save() with no
expires_at set fills created_at + 24h (86400 s). -/
def newToken (uid tokId : Nat) (now : Int) : EmailVerificationToken :=
  { token := tokId, userId := uid, created_at := now, expires_at := now + 86400,
    is_used := false }

/-- The token table. -/
def Ledger := List EmailVerificationToken

/-- One row of the UPDATE in services.py lines 83-85:
filter(user=user, is_used=False).update(is_used=True). -/
def invalidateUnused (uid : Nat) (t : EmailVerificationToken) : EmailVerificationToken :=
  if t.userId == uid && !t.is_used then { t with is_used := true } else t

/-- EmailVerificationService.send_verification_email (services.py lines
80-120): marks all of the user's unused tokens used, creates one fresh
token, then attempts delivery.  Delivery outcome (emailOk) does not affect
the ledger mutation, which happens first; the function returns the mutated
ledger together with the boolean the python function returns. -/
def send_verification_email (ledger : List EmailVerificationToken)
    (uid tokId : Nat) (now : Int) (emailOk : Bool) :
    List EmailVerificationToken × Bool :=
  let ledger1 := ledger.map (invalidateUnused uid)
  (ledger1 ++ [newToken uid tokId now], emailOk)

/-- Tokens of a user, unused ones only. -/
def tokensOfUnused (ledger : List EmailVerificationToken) (uid : Nat) :
    List EmailVerificationToken :=
  ledger.filter (fun t => t.userId == uid && !t.is_used)

/-- All tokens of a user. -/
def tokensOf (ledger : List EmailVerificationToken) (uid : Nat) :
    List EmailVerificationToken :=
  ledger.filter (fun t => t.userId == uid)

/-- Currently valid (unused, unexpired) tokens of a user. -/
def validTokensOf (ledger : List EmailVerificationToken) (uid : Nat) (now : Int) :
    List EmailVerificationToken :=
  ledger.filter (fun t => t.userId == uid && t.is_valid now)

/-- services.py lines 153-155: tokens of the user created within the
trailing 5-minute window (created_at >= now - 5 min), used or not. -/
def countRecent (ledger : List EmailVerificationToken) (uid : Nat) (now : Int) : Nat :=
  (ledger.filter (fun t => t.userId == uid && decide (now - 300 ≤ t.created_at))).length

/-- Database state seen by the email-verification service. -/
structure AuthDB where
  users : List User
  tokens : List EmailVerificationToken
deriving DecidableEq, Repr

/-- User.objects lookup by primary key (the token's FK target). -/
def findUser (users : List User) (uid : Nat) : Option User :=
  users.find? (fun u => u.id == uid)

/-- Outcome of EmailVerificationService.verify_email_token.  ok/err mirror
the python (user, None) / (None, reason) pairs; raised marks an exception
escaping the function (python has no handler for it on that path). -/
inductive VerifyOutcome where
  | ok (u : User)
  | err (reason : String)
  | raised (exn : String)
deriving DecidableEq, Repr

/-- EmailVerificationService.verify_email_token (services.py lines 122-146).
The DoesNotExist handler (lines 141-143) formats a log message that reads
the local variable user, which is never assigned on that path, so the
handler itself raises UnboundLocalError; the sibling except clause does not
catch exceptions raised inside another handler, so it escapes.  On the
valid path the token row is saved as used before the owning user is marked
verified. -/
def verify_email_token (db : AuthDB) (tokId : Nat) (now : Int) :
    VerifyOutcome × AuthDB :=
  match db.tokens.find? (fun t => t.token == tokId) with
  | none => (VerifyOutcome.raised "UnboundLocalError", db)
  | some t =>
    if !(t.is_valid now) then
      (VerifyOutcome.err
        (if t.is_expired now then "Verification link has expired"
         else "Verification link has already been used"), db)
    else
      let tokens1 := db.tokens.map
        (fun s => if s.token == tokId then { s with is_used := true } else s)
      match findUser db.users t.userId with
      | none => (VerifyOutcome.raised "DoesNotExist", { db with tokens := tokens1 })
      | some u =>
        let u1 := u.mark_email_verified now
        (VerifyOutcome.ok u1,
         { users := db.users.map (fun v => if v.id == u.id then u1 else v),
           tokens := tokens1 })

/-- EmailVerificationService.resend_verification_email (services.py lines
148-166).  Returns the (bool, reason) pair and the resulting ledger. -/
def resend_verification_email (ledger : List EmailVerificationToken) (u : User)
    (tokId : Nat) (now : Int) (emailOk : Bool) :
    (Bool × String) × List EmailVerificationToken :=
  if u.is_verified then ((false, "Email is already verified"), ledger)
  else if countRecent ledger u.id now ≥ 3 then
    ((false, "Too many verification emails sent. Please wait before requesting other"),
     ledger)
  else
    let (ledger1, sent) := send_verification_email ledger u.id tokId now emailOk
    if sent then ((true, "Verification sent successfully to email"), ledger1)
    else ((false, "Failed to send verification email"), ledger1)

/-- Modelled from the spec: the configured Django authentication backend is
project-settings code that is not under src/.  Per the spec (section 4.1,
Credential Store.authenticate: it verifies the credential-hash match), the
backend returns the user whose email matches and whose stored hash matches
the supplied password, and applies no further filtering. -/
def django_authenticate (users : List User) (email : String) (pw : Nat) :
    Option User :=
  users.find? (fun u => u.email == email && u.password == pw)

/-- AuthenticationService.authenticate_user (services.py lines 41-57).
The issued JWT pair carries no state relevant to the claims, so the model
returns only the (user, error) halves of the python result. -/
def authenticate_user (users : List User) (email : String) (pw : Nat)
    (now : Int) : Option User × Option String :=
  match django_authenticate users email pw with
  | some u =>
    if !u.is_active then (none, some "User accont is deactivated")
    else (some { u with last_seen := now }, none)
  | none => (none, some "Invalid Credentials")

/-- Profile tables plus the user table, as seen by registration. -/
structure RegState where
  users : List User
  patientProfiles : List Nat
  consultantProfiles : List Nat
deriving DecidableEq, Repr

/-- PatientProfile.objects.create(user=instance): every other column of
patients/models.py PatientProfile is blank-able or defaulted, so creation
with just the user succeeds unless the user already owns one (OneToOne). -/
def createPatientProfile (st : RegState) (uid : Nat) : Except String RegState :=
  if st.patientProfiles.contains uid then
    Except.error "IntegrityError: duplicate patient profile"
  else Except.ok { st with patientProfiles := uid :: st.patientProfiles }

/-- ConsultantProfile.objects.create(user=..., speciality?):
consultants/models.py lines 46-48 declare speciality as a ForeignKey with
neither null=True nor a default, so an INSERT without a speciality violates
NOT NULL and raises IntegrityError; user is OneToOne, so a second profile
for the same user also raises. -/
def createConsultantProfile (st : RegState) (uid : Nat)
    (speciality : Option Nat) : Except String RegState :=
  if st.consultantProfiles.contains uid then
    Except.error "IntegrityError: duplicate consultant profile"
  else
    match speciality with
    | none => Except.error "IntegrityError: NOT NULL constraint failed: consultant_profile.speciality_id"
    | some _ => Except.ok { st with consultantProfiles := uid :: st.consultantProfiles }

/-- authentication/signals.py create_user_profile (lines 10-26): post_save
receiver, runs on creation only; any exception in profile creation is
logged and swallowed, leaving the state unchanged.  The consultant branch
passes no speciality. -/
def create_user_profile (st : RegState) (u : User) : RegState :=
  match u.role with
  | Role.patient =>
    match createPatientProfile st u.id with
    | Except.ok st1 => st1
    | Except.error _ => st
  | Role.consultant =>
    match createConsultantProfile st u.id none with
    | Except.ok st1 => st1
    | Except.error _ => st
  | Role.admin => st

/-- UserManager.create_user (models.py lines 13-21) followed by the
post_save signal firing synchronously on the saved row. -/
def create_user (st : RegState) (email : String) (pw : Nat)
    (fn ln : String) (role : Role) (newUid : Nat) (now : Int) :
    RegState × User :=
  let u : User :=
    { id := newUid, email := email, password := pw, first_name := fn,
      last_name := ln, role := role, is_active := true, is_online := false,
      is_verified := false, last_seen := now, email_verified_at := none }
  let st1 : RegState := { st with users := st.users ++ [u] }
  (create_user_profile st1 u, u)

/-- AuthenticationService.register_user (services.py lines 19-39).  After
create_user (signal included), the consultant branch repeats
ConsultantProfile.objects.create(user=user) at line 32; the exception it
raises is caught by the surrounding except, which returns (None, str(ex))
— the already-committed user row persists. -/
def register_user (st : RegState) (email : String) (pw : Nat)
    (fn ln : String) (role : Role) (newUid : Nat) (now : Int) :
    (Option User × Option String) × RegState :=
  if st.users.any (fun u => u.email == email) then
    ((none, some "User with this email already exists"), st)
  else
    let (st1, u) := create_user st email pw fn ln role newUid now
    match role with
    | Role.consultant =>
      match createConsultantProfile st1 u.id none with
      | Except.ok st2 => ((some u, none), st2)
      | Except.error e => ((none, some e), st1)
    | _ => ((some u, none), st1)

/-- A refresh token as the logout view sees it: either it parses and
blacklists fine, or RefreshToken(...) / blacklist() raises
TokenError/InvalidToken. -/
inductive RefreshTok where
  | valid (id : Nat)
  | invalid
deriving DecidableEq, Repr

/-- HTTP response of the logout view, status code and message. -/
structure LogoutResponse where
  status : Nat
  message : String
deriving DecidableEq, Repr

/-- authentication/views.py logout (lines 99-113).  A supplied token that
fails to parse or blacklist returns 401 at once — the
update_user_status(request.user, is_online=False) line is never reached on
that path.  Result: (response, user row after the call, blacklist). -/
def logout (u : User) (rt : Option RefreshTok) (now : Int)
    (blacklist : List Nat) : LogoutResponse × User × List Nat :=
  match rt with
  | some RefreshTok.invalid =>
    ({ status := 401, message := "Invalid refresh token" }, u, blacklist)
  | some (RefreshTok.valid i) =>
    ({ status := 200, message := "logged out successfully" },
     update_user_status u false now, i :: blacklist)
  | none =>
    ({ status := 200, message := "logged out successfully" },
     update_user_status u false now, blacklist)

/-- Consultant profile as the review subsystem sees it: owner id and the
cached rating column. -/
structure ConsultantProfileRow where
  uid : Nat
  rating : Rat
deriving DecidableEq, Repr

/-- ConsultantReview row (consultants/models.py lines 143-177). -/
structure Review where
  consultant : Nat
  patient : Nat
  rating : Int
deriving DecidableEq, Repr

/-- self.reviews.aggregate(Avg("rating")): Django names the aggregate after
the field plus a double underscore plus the function, so the resulting dict
has the single key "rating__avg", holding None when the consultant has no
reviews. -/
def aggregate_avg_rating (reviews : List Review) : List (String × Option Rat) :=
  [("rating__avg",
    if reviews.isEmpty then none
    else some ((reviews.map (fun r => (r.rating : Rat))).sum / (reviews.length : Rat)))]

/-- Python dict subscript: KeyError when the key is absent. -/
def dictGet (d : List (String × Option Rat)) (key : String) :
    Except String (Option Rat) :=
  match d.find? (fun p => p.fst == key) with
  | some p => Except.ok p.snd
  | none => Except.error ("KeyError: " ++ key)

/-- round(x, 2) on the aggregate value, modelled as round-half-up on
hundredths (python rounds half to even; no claim distinguishes the two and
the call is unreachable, see update_rating). -/
def round2 (x : Rat) : Rat := ((round (x * 100) : Int) : Rat) / 100

/-- ConsultantProfile.update_rating (consultants/models.py lines 116-122).
The code subscripts the aggregate dict with "rating_avg" (single
underscore); the walrus assignment then treats None and 0 as falsy and
skips the save. -/
def update_rating (p : ConsultantProfileRow) (reviews : List Review) :
    Except String ConsultantProfileRow :=
  match dictGet (aggregate_avg_rating (reviews.filter (fun r => r.consultant == p.uid)))
      "rating_avg" with
  | Except.error e => Except.error e
  | Except.ok none => Except.ok p
  | Except.ok (some avg) =>
    if avg = 0 then Except.ok p else Except.ok { p with rating := round2 avg }

/-- Review-subsystem state: profile table and review table. -/
structure ConsState where
  profiles : List ConsultantProfileRow
  reviews : List Review
deriving DecidableEq, Repr

/-- ConsultantReview.save (consultants/models.py lines 166-168):
super().save() inserts the row, then self.consultant.update_rating() runs;
an exception there propagates out of save after the insert has happened.
Result: post-call state and the escaping exception, if any. -/
def review_save (st : ConsState) (r : Review) : ConsState × Option String :=
  let st1 : ConsState := { st with reviews := st.reviews ++ [r] }
  match st1.profiles.find? (fun p => p.uid == r.consultant) with
  | none => (st1, some "DoesNotExist")
  | some p =>
    match update_rating p st1.reviews with
    | Except.error e => (st1, some e)
    | Except.ok p1 =>
      ({ st1 with
         profiles := st1.profiles.map (fun q => if q.uid == p.uid then p1 else q) },
       none)

/-- Average of all reviews of a consultant, the value the spec says the
cached rating should equal after a write. -/
def specAverageRating (reviews : List Review) (uid : Nat) : Option Rat :=
  let rs := reviews.filter (fun r => r.consultant == uid)
  if rs.isEmpty then none
  else some (round2 ((rs.map (fun r => (r.rating : Rat))).sum / (rs.length : Rat)))

/-- Iterated resend calls, all at the same instant, consecutive token ids;
the notifier succeeds on each attempt. -/
def resendIter (ledger : List EmailVerificationToken) (u : User)
    (ids : List Nat) (now : Int) : List EmailVerificationToken :=
  ids.foldl (fun l i => (resend_verification_email l u i now true).snd) ledger

/-- Sample patient user used by the concrete scenarios. -/
def sampleUser : User :=
  { id := 1, email := "a@x.com", password := 5, first_name := "Jane",
    last_name := "Doe", role := Role.patient, is_active := true,
    is_online := false, is_verified := false, last_seen := 0,
    email_verified_at := none }

/-- The same user, deactivated. -/
def deactivatedUser : User := { sampleUser with is_active := false }

/-- The same user, currently online. -/
def onlineUser : User := { sampleUser with is_online := true }

/-- A token of sampleUser, issued at time 0, hence expiring at 86400. -/
def sampleToken : EmailVerificationToken :=
  { token := 42, userId := 1, created_at := 0, expires_at := 86400,
    is_used := false }

/-! Theorems, preceded by helper lemmas about the ledger operations. -/

/-- Filtering with a stronger predicate yields at most as many elements. -/
theorem length_filter_mono {α : Type} (p q : α → Bool) (l : List α)
    (h : ∀ x, p x = true → q x = true) :
    (l.filter p).length ≤ (l.filter q).length := by
  induction l with
  | nil => exact Nat.le_refl 0
  | cons a l ih =>
    by_cases hp : p a = true
    · simp only [List.filter_cons, hp, h a hp, if_true, List.length_cons]
      exact Nat.succ_le_succ ih
    · have hp' : p a = false := by simpa using hp
      by_cases hq : q a = true
      · simp only [List.filter_cons, hp', hq, if_true, Bool.false_eq_true, if_false,
          List.length_cons]
        exact Nat.le_succ_of_le ih
      · have hq' : q a = false := by simpa using hq
        simpa only [List.filter_cons, hp', hq', Bool.false_eq_true, if_false] using ih

/-- After the bulk UPDATE of send_verification_email, the target user has
no unused token left. -/
theorem unused_map_invalidate (uid : Nat) (l : List EmailVerificationToken) :
    (l.map (invalidateUnused uid)).filter (fun t => t.userId == uid && !t.is_used) = [] := by
  induction l with
  | nil => rfl
  | cons t l ih =>
    by_cases hc : (t.userId == uid && !t.is_used) = true
    · simp [invalidateUnused, hc, ih]
    · simp only [List.map_cons, List.filter_cons, invalidateUnused, hc, if_false]
      have hc' : (t.userId == uid && !t.is_used) = false := by simpa using hc
      simp [hc', ih]

/-- The bulk UPDATE leaves the token lists of other users untouched. -/
theorem tokensOf_map_invalidate (uid v : Nat) (h : v ≠ uid)
    (l : List EmailVerificationToken) :
    tokensOf (l.map (invalidateUnused uid)) v = tokensOf l v := by
  unfold tokensOf
  induction l with
  | nil => rfl
  | cons t l ih =>
    by_cases hc : (t.userId == uid && !t.is_used) = true
    · have huid : t.userId = uid := by
        have := hc
        simp only [Bool.and_eq_true, beq_iff_eq] at this
        exact this.1
      have hv : (t.userId == v) = false := by
        rw [huid]
        exact beq_eq_false_iff_ne.mpr (Ne.symm h)
      simp [invalidateUnused, hc, hv, ih]
    · have hc' : (t.userId == uid && !t.is_used) = false := by simpa using hc
      simp only [List.map_cons, List.filter_cons, invalidateUnused, hc',
        Bool.false_eq_true, if_false, ih]

/-- The bulk UPDATE leaves the valid-token lists of other users untouched. -/
theorem validTokensOf_map_invalidate (uid v : Nat) (now : Int) (h : v ≠ uid)
    (l : List EmailVerificationToken) :
    validTokensOf (l.map (invalidateUnused uid)) v now = validTokensOf l v now := by
  unfold validTokensOf
  induction l with
  | nil => rfl
  | cons t l ih =>
    by_cases hc : (t.userId == uid && !t.is_used) = true
    · have huid : t.userId = uid := by
        have := hc
        simp only [Bool.and_eq_true, beq_iff_eq] at this
        exact this.1
      have hv : (t.userId == v) = false := by
        rw [huid]
        exact beq_eq_false_iff_ne.mpr (Ne.symm h)
      simp [invalidateUnused, hc, hv, ih]
    · have hc' : (t.userId == uid && !t.is_used) = false := by simpa using hc
      simp only [List.map_cons, List.filter_cons, invalidateUnused, hc',
        Bool.false_eq_true, if_false, ih]

/-- C8: for a token identifier with no row in the ledger, verify_email_token
does not return the (None, reason) pair the spec requires: the DoesNotExist
handler's log line reads the unassigned local variable user and the call
raises through the transport layer.  The database is untouched. -/
theorem redeem_unknown_token_raises (db : AuthDB) (tokId : Nat) (now : Int)
    (hfind : db.tokens.find? (fun t => t.token == tokId) = none) :
    verify_email_token db tokId now = (VerifyOutcome.raised "UnboundLocalError", db) := by
  unfold verify_email_token
  rw [hfind]

theorem redeem_unknown_token_raises_witness :
    (AuthDB.mk [] []).tokens.find? (fun t => t.token == 42) = none ∧
    verify_email_token (AuthDB.mk [] []) 42 0
      = (VerifyOutcome.raised "UnboundLocalError", AuthDB.mk [] []) :=
  ⟨rfl, redeem_unknown_token_raises (AuthDB.mk [] []) 42 0 rfl⟩

/-- C9 counterexample: mark_email_verified applied at time 0 and again at
time 1 does not leave the user in the single-application state: the second
call overwrites email_verified_at with the later stamp. -/
theorem mark_email_verified_restamps :
    (sampleUser.mark_email_verified 0).email_verified_at = some 0 ∧
    ((sampleUser.mark_email_verified 0).mark_email_verified 1).email_verified_at = some 1 ∧
    (sampleUser.mark_email_verified 0).mark_email_verified 1 ≠ sampleUser.mark_email_verified 0 := by
  refine ⟨rfl, rfl, ?_⟩
  decide

/-- C9 amended: mark_email_verified always sets is_verified and overwrites
email_verified_at with the current time; applying it twice at the same
instant equals applying it once, while a second application at a later
time keeps is_verified but moves the stamp to the later time. -/
theorem mark_email_verified_idempotent_same_instant (u : User) (t t' : Int) :
    (u.mark_email_verified t).mark_email_verified t = u.mark_email_verified t ∧
    ((u.mark_email_verified t).mark_email_verified t').is_verified = true ∧
    ((u.mark_email_verified t).mark_email_verified t').email_verified_at = some t' :=
  ⟨rfl, rfl, rfl⟩

/-- C7 counterexample: logout with an invalid refresh token returns the 401
error and leaves the online user online — the offline update is skipped,
contradicting the claim that the user is set offline regardless of token
validity. -/
theorem logout_invalid_token_keeps_user_online :
    onlineUser.is_online = true ∧
    (logout onlineUser (some RefreshTok.invalid) 5 []).snd.fst.is_online = true ∧
    (logout onlineUser (some RefreshTok.invalid) 5 []).fst.status = 401 :=
  ⟨rfl, rfl, rfl⟩

/-- C7 amended: logout sets the user offline (with last_seen updated) when
the refresh token is absent or valid, and blacklists a valid token; when
the token is invalid or unparseable it returns the invalid-token error and
performs no status update at all. -/
theorem logout_sets_offline_unless_invalid_token (u : User) (now : Int)
    (bl : List Nat) (i : Nat) :
    (logout u none now bl).snd.fst.is_online = false ∧
    (logout u none now bl).snd.fst.last_seen = now ∧
    (logout u (some (RefreshTok.valid i)) now bl).snd.fst.is_online = false ∧
    (logout u (some (RefreshTok.valid i)) now bl).snd.snd = i :: bl ∧
    logout u (some RefreshTok.invalid) now bl
      = ({ status := 401, message := "Invalid refresh token" }, u, bl) :=
  ⟨rfl, rfl, rfl, rfl, rfl⟩

/-- C2: registering a valid consultant fails instead of succeeding: the
post_save signal's profile creation dies on the non-nullable speciality
column (swallowed), then register_user's own duplicate
ConsultantProfile.objects.create raises, is caught, and registration
returns (None, error) while the user row persists with no profile. -/
theorem consultant_registration_fails :
    (register_user (RegState.mk [] [] []) "c@x.com" 7 "John" "Doe" Role.consultant 1 0).fst.fst
      = none ∧
    (register_user (RegState.mk [] [] []) "c@x.com" 7 "John" "Doe" Role.consultant 1 0).fst.snd
      = some "IntegrityError: NOT NULL constraint failed: consultant_profile.speciality_id" ∧
    ((register_user (RegState.mk [] [] []) "c@x.com" 7 "John" "Doe" Role.consultant 1 0).snd.users.map
        User.email) = ["c@x.com"] ∧
    (register_user (RegState.mk [] [] []) "c@x.com" 7 "John" "Doe" Role.consultant 1 0).snd.consultantProfiles
      = [] :=
  ⟨rfl, rfl, rfl, rfl⟩

/-- C6 counterexample: the deactivated sample user with a wrong password
(stored hash 5, supplied 6) fails with Invalid Credentials, not with the
account-deactivated error, refuting "regardless of whether the supplied
password matches". -/
theorem deactivated_wrong_password_gives_invalid_credentials :
    deactivatedUser.is_active = false ∧
    authenticate_user [deactivatedUser] "a@x.com" 6 0 = (none, some "Invalid Credentials") ∧
    (some "Invalid Credentials" : Option String) ≠ some "User accont is deactivated" := by
  refine ⟨rfl, rfl, ?_⟩
  decide

/-- C6 amended: when every stored user with the given email is deactivated,
authentication always fails; the error is the account-deactivated one
exactly when the credential hash matches (the backend returns the user),
and Invalid Credentials when it does not. -/
theorem deactivated_account_login_always_fails (users : List User)
    (email : String) (pw : Nat) (now : Int)
    (hall : ∀ u ∈ users, u.email = email → u.is_active = false) :
    (authenticate_user users email pw now).fst = none ∧
    (∀ u, django_authenticate users email pw = some u →
      (authenticate_user users email pw now).snd = some "User accont is deactivated") ∧
    (django_authenticate users email pw = none →
      (authenticate_user users email pw now).snd = some "Invalid Credentials") := by
  rcases h : django_authenticate users email pw with _ | u
  · refine ⟨by simp [authenticate_user, h], ?_, fun _ => by simp [authenticate_user, h]⟩
    intro u hu
    simp at hu
  · have h2 : users.find? (fun v => v.email == email && v.password == pw) = some u := h
    have hp0 := List.find?_some h2
    have hp : (u.email == email && u.password == pw) = true := hp0
    simp only [Bool.and_eq_true, beq_iff_eq] at hp
    have hmem : u ∈ users := List.mem_of_find?_eq_some h2
    have hin : u.is_active = false := hall u hmem hp.1
    refine ⟨by simp [authenticate_user, h, hin], ?_, ?_⟩
    · intro v hv
      simp [authenticate_user, h, hin]
    · intro hn
      simp at hn

theorem deactivated_account_login_always_fails_witness :
    (authenticate_user [deactivatedUser] "a@x.com" 5 0).fst = none :=
  (deactivated_account_login_always_fails [deactivatedUser] "a@x.com" 5 0
    (by decide)).1

/-- C10: writing a review does not recompute the consultant's cached
rating: update_rating subscripts the aggregate dict with the key
rating_avg while Django names it rating__avg, so ConsultantReview.save
raises KeyError after inserting the row; with one 5-star review the cached
rating stays 0 although the average of all reviews is 5. -/
theorem review_write_raises_keyerror :
    (review_save (ConsState.mk [ConsultantProfileRow.mk 1 0] []) (Review.mk 1 2 5)).snd
      = some "KeyError: rating_avg" ∧
    (review_save (ConsState.mk [ConsultantProfileRow.mk 1 0] []) (Review.mk 1 2 5)).fst.profiles
      = [ConsultantProfileRow.mk 1 0] ∧
    (review_save (ConsState.mk [ConsultantProfileRow.mk 1 0] []) (Review.mk 1 2 5)).fst.reviews
      = [Review.mk 1 2 5] ∧
    specAverageRating
      (review_save (ConsState.mk [ConsultantProfileRow.mk 1 0] []) (Review.mk 1 2 5)).fst.reviews 1
      = some 5 ∧
    (0 : Rat) ≠ 5 := by
  refine ⟨rfl, rfl, rfl, ?_, by norm_num⟩
  show specAverageRating [Review.mk 1 2 5] 1 = some 5
  simp [specAverageRating, round2]
  norm_num [round_eq]

/-- C1: send_verification_email marks every existing unused token of the
user as used and then creates exactly one new token with is_used = false;
the new token is the user's only unused (hence only valid) token, other
users' token lists are untouched, and the at-most-one-valid-token-per-user
invariant is preserved. -/
theorem issue_invalidates_prior_tokens (ledger : List EmailVerificationToken)
    (uid tokId : Nat) (now : Int) (emailOk : Bool)
    (hinv : ∀ v, (validTokensOf ledger v now).length ≤ 1) :
    tokensOfUnused (send_verification_email ledger uid tokId now emailOk).fst uid
      = [newToken uid tokId now] ∧
    (newToken uid tokId now).is_used = false ∧
    (∀ v, v ≠ uid →
      tokensOf (send_verification_email ledger uid tokId now emailOk).fst v
        = tokensOf ledger v) ∧
    ∀ v, (validTokensOf (send_verification_email ledger uid tokId now emailOk).fst v now).length ≤ 1 := by
  refine ⟨?_, rfl, ?_, ?_⟩
  · unfold tokensOfUnused send_verification_email
    rw [List.filter_append, unused_map_invalidate]
    simp [newToken]
  · intro v hv
    unfold tokensOf send_verification_email
    rw [List.filter_append]
    have hnew : ((newToken uid tokId now).userId == v) = false :=
      beq_eq_false_iff_ne.mpr (Ne.symm hv)
    have h2 : List.filter (fun t => t.userId == v) [newToken uid tokId now] = [] := by
      simp [hnew]
    rw [h2, List.append_nil]
    exact tokensOf_map_invalidate uid v hv ledger
  · intro v
    by_cases hv : v = uid
    · subst hv
      have hmono := length_filter_mono
        (fun t => t.userId == v && t.is_valid now)
        (fun t => t.userId == v && !t.is_used)
        (send_verification_email ledger v tokId now emailOk).fst
        (by
          intro t ht
          simp only [Bool.and_eq_true, EmailVerificationToken.is_valid] at ht ⊢
          exact ⟨ht.1, ht.2.1⟩)
      have h1 : tokensOfUnused (send_verification_email ledger v tokId now emailOk).fst v
          = [newToken v tokId now] := by
        unfold tokensOfUnused send_verification_email
        rw [List.filter_append, unused_map_invalidate]
        simp [newToken]
      unfold validTokensOf
      unfold tokensOfUnused at h1
      rw [h1] at hmono
      exact hmono
    · have hnew : ((newToken uid tokId now).userId == v) = false :=
        beq_eq_false_iff_ne.mpr (Ne.symm hv)
      unfold validTokensOf send_verification_email
      rw [List.filter_append]
      have h2 : List.filter (fun t => t.userId == v && t.is_valid now)
          [newToken uid tokId now] = [] := by
        simp [hnew]
      rw [h2, List.append_nil]
      have h3 := validTokensOf_map_invalidate uid v now hv ledger
      unfold validTokensOf at h3
      rw [h3]
      exact hinv v

theorem issue_invalidates_prior_tokens_witness :
    tokensOfUnused (send_verification_email [sampleToken] 1 99 10 true).fst 1
      = [newToken 1 99 10] :=
  (issue_invalidates_prior_tokens [sampleToken] 1 99 10 true
    (fun _ => Nat.le_trans (List.length_filter_le _ _) (Nat.le_refl 1))).1

/-- C4: a token whose expiry lies in the past at redemption time is
rejected with the expired-token message; the expiry check is decided
before the used check, so this holds with no assumption on is_used. -/
theorem redeem_expired_before_used (db : AuthDB) (tokId : Nat) (now : Int)
    (t : EmailVerificationToken)
    (hfind : db.tokens.find? (fun s => s.token == tokId) = some t)
    (hexp : now > t.expires_at) :
    (verify_email_token db tokId now).fst = VerifyOutcome.err "Verification link has expired" := by
  unfold verify_email_token
  rw [hfind]
  have he : t.is_expired now = true := by
    simp [EmailVerificationToken.is_expired, hexp]
  have hv : t.is_valid now = false := by
    simp [EmailVerificationToken.is_valid, he]
  simp [hv, he]

theorem redeem_expired_before_used_witness :
    (verify_email_token (AuthDB.mk [sampleUser] [sampleToken]) 42 90000).fst
      = VerifyOutcome.err "Verification link has expired" :=
  redeem_expired_before_used (AuthDB.mk [sampleUser] [sampleToken]) 42 90000
    sampleToken rfl (by decide)

/-- A looked-up token that is already used and not expired is rejected
with the already-used message. -/
theorem verify_used_token (db : AuthDB) (tokId : Nat) (now : Int)
    (t : EmailVerificationToken)
    (hfind : db.tokens.find? (fun s => s.token == tokId) = some t)
    (hused : t.is_used = true) (hexp : ¬ now > t.expires_at) :
    (verify_email_token db tokId now).fst
      = VerifyOutcome.err "Verification link has already been used" := by
  unfold verify_email_token
  rw [hfind]
  simp [EmailVerificationToken.is_valid, EmailVerificationToken.is_expired, hused, hexp]

/-- C3: redeeming a token that is unused and unexpired succeeds, marks the
token used and returns the owning user marked verified; immediately
redeeming the same token again fails with the already-used message. -/
theorem redeem_twice (db : AuthDB) (tokId : Nat) (now : Int)
    (t : EmailVerificationToken) (u : User)
    (hfind : db.tokens.find? (fun s => s.token == tokId) = some t)
    (hused : t.is_used = false)
    (hexp : ¬ now > t.expires_at)
    (huser : findUser db.users t.userId = some u) :
    (verify_email_token db tokId now).fst = VerifyOutcome.ok (u.mark_email_verified now) ∧
    ((verify_email_token db tokId now).snd.tokens.find? (fun s => s.token == tokId)
      = some { t with is_used := true }) ∧
    (verify_email_token (verify_email_token db tokId now).snd tokId now).fst
      = VerifyOutcome.err "Verification link has already been used" := by
  have he : t.is_expired now = false := by
    simp [EmailVerificationToken.is_expired, hexp]
  have hv : t.is_valid now = true := by
    simp [EmailVerificationToken.is_valid, he, hused]
  have hfst : verify_email_token db tokId now
      = (VerifyOutcome.ok (u.mark_email_verified now),
         { users := db.users.map (fun v => if v.id == u.id then u.mark_email_verified now else v),
           tokens := db.tokens.map
             (fun s => if s.token == tokId then { s with is_used := true } else s) }) := by
    unfold verify_email_token
    rw [hfind]
    simp [hv, huser]
  have htok0 := List.find?_some hfind
  have htok : (t.token == tokId) = true := htok0
  have hfind2 : (verify_email_token db tokId now).snd.tokens.find?
      (fun s => s.token == tokId) = some { t with is_used := true } := by
    rw [hfst]
    show (db.tokens.map
      (fun s => if s.token == tokId then { s with is_used := true } else s)).find?
      (fun s => s.token == tokId) = some { t with is_used := true }
    rw [List.find?_map]
    have hpf : ((fun s => s.token == tokId) ∘
        (fun s => if s.token == tokId then { s with is_used := true } else s))
        = (fun s : EmailVerificationToken => s.token == tokId) := by
      funext s
      by_cases hs : s.token = tokId
      · simp [hs]
      · simp [hs]
    rw [hpf, hfind]
    have htok' : t.token = tokId := by simpa using htok
    simp [htok']
  refine ⟨by rw [hfst], hfind2, ?_⟩
  exact verify_used_token _ tokId now { t with is_used := true } hfind2 rfl hexp

theorem redeem_twice_witness :
    (verify_email_token (AuthDB.mk [sampleUser] [sampleToken]) 42 10).fst
      = VerifyOutcome.ok (sampleUser.mark_email_verified 10) ∧
    (verify_email_token
        (verify_email_token (AuthDB.mk [sampleUser] [sampleToken]) 42 10).snd 42 10).fst
      = VerifyOutcome.err "Verification link has already been used" :=
  ⟨(redeem_twice (AuthDB.mk [sampleUser] [sampleToken]) 42 10 sampleToken sampleUser
      rfl rfl (by decide) rfl).1,
   (redeem_twice (AuthDB.mk [sampleUser] [sampleToken]) 42 10 sampleToken sampleUser
      rfl rfl (by decide) rfl).2.2⟩

/-- C5: an unverified user with at least 3 tokens created in the trailing
5-minute window (used or not) has a further resend refused with the
too-many-requests reason and an unchanged ledger; concretely, of 4 resend
calls in the window starting from an empty ledger the first three issue
tokens, the fourth is refused leaving 3 tokens, and a call after the
window elapses succeeds and issues the 4th token. -/
theorem resend_throttled_after_three (ledger : List EmailVerificationToken)
    (u : User) (tokId : Nat) (now : Int) (emailOk : Bool)
    (hver : u.is_verified = false)
    (hcnt : countRecent ledger u.id now ≥ 3) :
    resend_verification_email ledger u tokId now emailOk
      = ((false, "Too many verification emails sent. Please wait before requesting other"),
         ledger) ∧
    (resend_verification_email (resendIter [] sampleUser [101, 102, 103] 0) sampleUser 104 0 true).fst
      = (false, "Too many verification emails sent. Please wait before requesting other") ∧
    (tokensOf (resendIter [] sampleUser [101, 102, 103, 104] 0) 1).length = 3 ∧
    (resend_verification_email (resendIter [] sampleUser [101, 102, 103, 104] 0) sampleUser 105 301 true).fst
      = (true, "Verification sent successfully to email") ∧
    (tokensOf (resend_verification_email (resendIter [] sampleUser [101, 102, 103, 104] 0)
        sampleUser 105 301 true).snd 1).length = 4 := by
  refine ⟨?_, by decide, by decide, by decide, by decide⟩
  unfold resend_verification_email
  simp [hver, hcnt]

theorem resend_throttled_after_three_witness :
    resend_verification_email [newToken 1 101 0, newToken 1 102 0, newToken 1 103 0]
        sampleUser 104 0 true
      = ((false, "Too many verification emails sent. Please wait before requesting other"),
         [newToken 1 101 0, newToken 1 102 0, newToken 1 103 0]) :=
  (resend_throttled_after_three [newToken 1 101 0, newToken 1 102 0, newToken 1 103 0]
    sampleUser 104 0 true rfl (by decide)).1

end DigiClinic
